import Mathlib

/-!
Verification of the gocent HTTP API client (centrifugal/gocent), shallowly
embedded in Lean 4.  The embedding follows the current revision of the
source: `pipe.go` (the `Pipe` command buffer and its `Add*` operations),
`options.go` (functional option decorators), and `doc.go` (the `Client`
transport: `send`, `SendPipe`, and the single-command convenience
operations `Publish` and `History`).

Modelling conventions:
* Go structs become Lean structures with the same field names; Go's
  functional options (`func(*Options)`) become `Options → Options`
  functions applied by a left fold, mirroring the `for _, opt := range
  opts { opt(options) }` loops.
* `json.RawMessage` values are raw JSON text (`String`); optional
  (`omitempty`, nil-able) ones are `Option String`.
* The injected HTTP capability (`http.Client.Do` together with the
  request context) is a function parameter
  `HttpRequest → Except String HttpResponse`; a transport failure or a
  cancelled context is the `.error` case.
* A response body is modelled as the stream of outcomes of the
  newline-delimited JSON decode loop: each element either decoded to a
  `Reply` or failed (`Except String Reply`), exactly the granularity at
  which `json.Decoder.Decode` is consumed in `Client.send`.
* The mutex guarding the `Pipe` buffer serialises appends; the embedding
  is the resulting sequential semantics, with state passed explicitly
  (each mutating method returns the new `Pipe`).
-/

namespace Gocent

/-- StreamPosition contains fields to describe position in stream
(`options.go`): `Offset uint64`, `Epoch string`. -/
structure StreamPosition where
  Offset : Nat := 0
  Epoch : String := ""
deriving DecidableEq, Repr

/-- PublishOptions (`options.go`): `SkipHistory bool`. -/
structure PublishOptions where
  SkipHistory : Bool := false
deriving DecidableEq, Repr

/-- PublishOption is a type to represent various Publish options
(`func(*PublishOptions)` embedded as a function on the record). -/
def PublishOption := PublishOptions → PublishOptions

/-- WithSkipHistory allows to set SkipHistory field. -/
def WithSkipHistory (skip : Bool) : PublishOption :=
  fun opts => { opts with SkipHistory := skip }

/-- SubscribeOptions define per-subscription options (`options.go`).
`Info` and `Data` are `json.RawMessage` (raw JSON text, `none` = nil),
`RecoverSince` is `*StreamPosition`. -/
structure SubscribeOptions where
  Info : Option String := none
  Presence : Bool := false
  JoinLeave : Bool := false
  Position : Bool := false
  Recover : Bool := false
  Data : Option String := none
  RecoverSince : Option StreamPosition := none
  ClientID : String := ""
deriving DecidableEq, Repr

/-- SubscribeOption is a type to represent various Subscribe options. -/
def SubscribeOption := SubscribeOptions → SubscribeOptions

/-- WithSubscribeInfo sets the Info field. -/
def WithSubscribeInfo (chanInfo : Option String) : SubscribeOption :=
  fun opts => { opts with Info := chanInfo }

/-- WithPresence sets the Presence field. -/
def WithPresence (enabled : Bool) : SubscribeOption :=
  fun opts => { opts with Presence := enabled }

/-- WithJoinLeave sets the JoinLeave field. -/
def WithJoinLeave (enabled : Bool) : SubscribeOption :=
  fun opts => { opts with JoinLeave := enabled }

/-- WithPosition sets the Position field. -/
def WithPosition (enabled : Bool) : SubscribeOption :=
  fun opts => { opts with Position := enabled }

/-- WithRecover sets the Recover field. -/
def WithRecover (enabled : Bool) : SubscribeOption :=
  fun opts => { opts with Recover := enabled }

/-- WithSubscribeClient allows setting client ID that should be subscribed. -/
def WithSubscribeClient (clientID : String) : SubscribeOption :=
  fun opts => { opts with ClientID := clientID }

/-- WithSubscribeData allows setting custom data to send with subscribe push. -/
def WithSubscribeData (data : Option String) : SubscribeOption :=
  fun opts => { opts with Data := data }

/-- WithRecoverSince allows setting SubscribeOptions.RecoverSince. -/
def WithRecoverSince (since : Option StreamPosition) : SubscribeOption :=
  fun opts => { opts with RecoverSince := since }

/-- UnsubscribeOptions (`options.go`): `ClientID string`. -/
structure UnsubscribeOptions where
  ClientID : String := ""
deriving DecidableEq, Repr

/-- UnsubscribeOption is a type to represent various Unsubscribe options. -/
def UnsubscribeOption := UnsubscribeOptions → UnsubscribeOptions

/-- WithUnsubscribeClient allows setting client ID that should be unsubscribed. -/
def WithUnsubscribeClient (clientID : String) : UnsubscribeOption :=
  fun opts => { opts with ClientID := clientID }

/-- Disconnect allows to configure how client will be disconnected from server
(`options.go`). -/
structure Disconnect where
  Code : Nat := 0
  Reason : String := ""
  Reconnect : Bool := false
deriving DecidableEq, Repr

/-- DisconnectOptions define some fields to alter behaviour of Disconnect
operation; `Disconnect` is a `*Disconnect` pointer (`none` = nil). -/
structure DisconnectOptions where
  Disconnect : Option Disconnect := none
  ClientWhitelist : List String := []
  ClientID : String := ""
deriving DecidableEq, Repr

/-- DisconnectOption is a type to represent various Disconnect options. -/
def DisconnectOption := DisconnectOptions → DisconnectOptions

/-- WithDisconnect allows to set custom Disconnect. -/
def WithDisconnect (disconnect : Option Disconnect) : DisconnectOption :=
  fun opts => { opts with Disconnect := disconnect }

/-- WithDisconnectClient allows to set Client. -/
def WithDisconnectClient (clientID : String) : DisconnectOption :=
  fun opts => { opts with ClientID := clientID }

/-- WithDisconnectClientWhitelist allows to set ClientWhitelist. -/
def WithDisconnectClientWhitelist (whitelist : List String) : DisconnectOption :=
  fun opts => { opts with ClientWhitelist := whitelist }

/-- HistoryOptions define some fields to alter History method behaviour
(`options.go`): `Since *StreamPosition`, `Limit int`, `Reverse bool`. -/
structure HistoryOptions where
  Since : Option StreamPosition := none
  Limit : Int := 0
  Reverse : Bool := false
deriving DecidableEq, Repr

/-- HistoryOption is a type to represent various History options. -/
def HistoryOption := HistoryOptions → HistoryOptions

/-- NoLimit defines that limit should not be applied. -/
def NoLimit : Int := -1

/-- WithLimit allows to set HistoryOptions.Limit. -/
def WithLimit (limit : Int) : HistoryOption :=
  fun opts => { opts with Limit := limit }

/-- WithSince allows to set HistoryOptions.Since option. -/
def WithSince (sp : Option StreamPosition) : HistoryOption :=
  fun opts => { opts with Since := sp }

/-- WithReverse allows to set HistoryOptions.Reverse option. -/
def WithReverse (reverse : Bool) : HistoryOption :=
  fun opts => { opts with Reverse := reverse }

/-- ChannelsOptions define some fields to alter Channels method behaviour. -/
structure ChannelsOptions where
  Pattern : String := ""
deriving DecidableEq, Repr

/-- ChannelsOption is a type to represent various Channels call options. -/
def ChannelsOption := ChannelsOptions → ChannelsOptions

/-- WithPattern allows to set ChannelsOptions.Pattern. -/
def WithPattern (pattern : String) : ChannelsOption :=
  fun opts => { opts with Pattern := pattern }

/-- The decorator-application loop shared by every `Add*` operation:
`for _, opt := range opts { opt(options) }` starting from a fresh
zero-valued record. -/
def applyOpts {α : Type} (opts : List (α → α)) (init : α) : α :=
  opts.foldl (fun acc f => f acc) init

/-! ## Wire values, replies and typed results

The file of the repository declaring the current `Command`, `Reply`,
`Error` and typed result structures is not among the sources; those
records are modelled from the spec (§3 data model, §6 wire protocol) and
from how `pipe.go` / `doc.go` use them. -/

/-- A parsed JSON value, used for a `Reply`'s opaque `result` payload. -/
inductive JsonVal where
  | null : JsonVal
  | bool (b : Bool) : JsonVal
  | num (n : Int) : JsonVal
  | str (s : String) : JsonVal
  | arr (elems : List JsonVal) : JsonVal
  | obj (fields : List (String × JsonVal)) : JsonVal

/-- Modelled from the spec: the server-reported structured error carried
inside a Reply — "error: optional structured error (code + message)"
(§3); its declaring file is absent from the sources. -/
structure ServerError where
  Code : Nat := 0
  Message : String := ""
deriving DecidableEq, Repr

/-- Modelled from the spec: `Reply` — "{ error: optional structured
error, result: opaque-serializable-payload }" (§3); one Reply corresponds
positionally to one Command. Its declaring file is absent from the
sources. -/
structure Reply where
  Error : Option ServerError := none
  Result : JsonVal := .null

/-- Modelled from the spec: the typed result of a publish operation; the
spec's example shows its `Offset`/`Epoch` stream-position fields
(`examples/client.go`). Its declaring file is absent from the sources. -/
structure PublishResult where
  Offset : Nat := 0
  Epoch : String := ""
deriving DecidableEq, Repr

/-- Modelled from the spec: the typed result of a history operation; the
spec's example reads `Publications` from it, and history results carry a
stream position. Its declaring file is absent from the sources. -/
structure HistoryResult where
  Publications : List JsonVal := []
  Offset : Nat := 0
  Epoch : String := ""

/-- Go error values returned by the client. The named values mirror the
errors declared in `doc.go`; the remaining constructors model errors that
originate outside the repository (stdlib JSON failures, the HTTP
capability) and the Go runtime panic on an out-of-range index. -/
inductive GoError where
  | pipeEmpty : GoError
  | malformedResponse : GoError
  | statusCode (code : Nat) : GoError
  | transport (msg : String) : GoError
  | streamDecode (msg : String) : GoError
  | replyError (e : ServerError) : GoError
  | decodeError (msg : String) : GoError
  | indexOutOfRange : GoError
deriving DecidableEq, Repr

/-- ErrPipeEmpty returned when no commands found in Pipe (`doc.go`). -/
def ErrPipeEmpty : GoError := .pipeEmpty

/-- ErrMalformedResponse can be returned when server replied with invalid
response (`doc.go`). -/
def ErrMalformedResponse : GoError := .malformedResponse

/-- ErrStatusCode can be returned in case request to server resulted in
wrong status code (`doc.go`). -/
def ErrStatusCode (code : Nat) : GoError := .statusCode code

/-! ## Requests and the Command envelope (`pipe.go`) -/

/-- PublishRequest (`pipe.go`): channel, raw JSON data, embedded
PublishOptions. -/
structure PublishRequest where
  Channel : String
  Data : String
  PubOpts : PublishOptions
deriving DecidableEq, Repr

/-- broadcastRequest (`pipe.go`): channels, raw JSON data, embedded
PublishOptions. -/
structure broadcastRequest where
  Channels : List String
  Data : String
  PubOpts : PublishOptions
deriving DecidableEq, Repr

/-- subscribeRequest (`pipe.go`): channel, user, embedded
SubscribeOptions. -/
structure subscribeRequest where
  Channel : String
  User : String
  SubOpts : SubscribeOptions
deriving DecidableEq, Repr

/-- unsubscribeRequest (`pipe.go`): channel, user, embedded
UnsubscribeOptions. -/
structure unsubscribeRequest where
  Channel : String
  User : String
  UnsubOpts : UnsubscribeOptions
deriving DecidableEq, Repr

/-- disconnectRequest (`pipe.go`): user, embedded DisconnectOptions. -/
structure disconnectRequest where
  User : String
  DiscOpts : DisconnectOptions
deriving DecidableEq, Repr

/-- historyRequest (`pipe.go`): channel, embedded HistoryOptions. -/
structure historyRequest where
  Channel : String
  HistOpts : HistoryOptions
deriving DecidableEq, Repr

/-- channelsRequest (`pipe.go`): optional pattern. -/
structure channelsRequest where
  Pattern : String
deriving DecidableEq, Repr

/-- The shapes a `Command`'s `Params interface{}` field takes across the
`Add*` operations of `pipe.go`: one typed request per command kind, plus
the `map[string]interface{}` (string-valued) maps used by presence,
presence_stats, history_remove and info. -/
inductive CommandParams where
  | publish (r : PublishRequest) : CommandParams
  | broadcast (r : broadcastRequest) : CommandParams
  | subscribe (r : subscribeRequest) : CommandParams
  | unsubscribe (r : unsubscribeRequest) : CommandParams
  | disconnect (r : disconnectRequest) : CommandParams
  | history (r : historyRequest) : CommandParams
  | channels (r : channelsRequest) : CommandParams
  | strMap (m : List (String × String)) : CommandParams
deriving DecidableEq, Repr

/-- Command represents API command to send. Modelled from the spec for
the fields: "{ uid: string (optional correlation hint), method: string,
params: opaque-serializable-payload }" (§3) — the declaring file is
absent from the sources; `pipe.go` never sets `uid`. -/
structure Command where
  UID : Option String := none
  Method : String
  Params : CommandParams
deriving DecidableEq, Repr

/-- Pipe allows to send several commands in one HTTP request
(`pipe.go`). The `sync.RWMutex` serialises the mutating methods; the
embedding is the sequential semantics, with the updated Pipe returned. -/
structure Pipe where
  commands : List Command
deriving DecidableEq, Repr

/-- Reset allows to clear client command buffer (`pipe.go`). -/
def Pipe.Reset (_p : Pipe) : Pipe := ⟨[]⟩

/-- `Pipe.add` (`pipe.go`): appends one command under the lock and
returns nil. The Go `error` return is the second component. -/
def Pipe.add (p : Pipe) (cmd : Command) : Pipe × Option GoError :=
  (⟨p.commands ++ [cmd]⟩, none)

/-- `Pipe.addMany` (`pipe.go`): appends commands under the lock and
returns nil. -/
def Pipe.addMany (p : Pipe) (cmds : List Command) : Pipe × Option GoError :=
  (⟨p.commands ++ cmds⟩, none)

/-- AddPublish adds publish command to client command buffer
(`pipe.go`, current revision). -/
def Pipe.AddPublish (p : Pipe) (channel : String) (data : String)
    (opts : List PublishOption) : Pipe × Option GoError :=
  let options := Gocent.applyOpts opts {}
  p.add { Method := "publish",
          Params := .publish ⟨channel, data, options⟩ }

/-- AddPublishRequests adds publish commands to client command buffer
(`pipe.go`, current revision). -/
def Pipe.AddPublishRequests (p : Pipe) (requests : List PublishRequest) :
    Pipe × Option GoError :=
  p.addMany (requests.map fun request =>
    { Method := "publish", Params := .publish request })

/-- AddBroadcast adds broadcast command to client command buffer
(`pipe.go`, current revision). -/
def Pipe.AddBroadcast (p : Pipe) (channels : List String) (data : String)
    (opts : List PublishOption) : Pipe × Option GoError :=
  let options := Gocent.applyOpts opts {}
  p.add { Method := "broadcast",
          Params := .broadcast ⟨channels, data, options⟩ }

/-- AddSubscribe adds subscribe command to client command buffer
(`pipe.go`, current revision, after the separator: method
`"subscribe"`). -/
def Pipe.AddSubscribe (p : Pipe) (channel : String) (user : String)
    (opts : List SubscribeOption) : Pipe × Option GoError :=
  let options := Gocent.applyOpts opts {}
  p.add { Method := "subscribe",
          Params := .subscribe ⟨channel, user, options⟩ }

/-- The earlier revision of `Pipe.AddSubscribe` (`pipe.go` lines 84–98,
the revision before the separator): identical construction except that
it sets the Command method to `"unsubscribe"` (and even carries the
AddUnsubscribe doc comment) — the slip that claim C1 is about. -/
def Pipe.AddSubscribeOld (p : Pipe) (channel : String) (user : String)
    (opts : List SubscribeOption) : Pipe × Option GoError :=
  let options := Gocent.applyOpts opts {}
  p.add { Method := "unsubscribe",
          Params := .subscribe ⟨channel, user, options⟩ }

/-- AddUnsubscribe adds unsubscribe command to client command buffer
(`pipe.go`, current revision). -/
def Pipe.AddUnsubscribe (p : Pipe) (channel : String) (user : String)
    (opts : List UnsubscribeOption) : Pipe × Option GoError :=
  let options := Gocent.applyOpts opts {}
  p.add { Method := "unsubscribe",
          Params := .unsubscribe ⟨channel, user, options⟩ }

/-- AddDisconnect adds disconnect command to client command buffer
(`pipe.go`, current revision). -/
def Pipe.AddDisconnect (p : Pipe) (user : String)
    (opts : List DisconnectOption) : Pipe × Option GoError :=
  let options := Gocent.applyOpts opts {}
  p.add { Method := "disconnect",
          Params := .disconnect ⟨user, options⟩ }

/-- AddPresence adds presence command to client command buffer
(`pipe.go`, current revision). -/
def Pipe.AddPresence (p : Pipe) (channel : String) : Pipe × Option GoError :=
  p.add { Method := "presence", Params := .strMap [("channel", channel)] }

/-- AddPresenceStats adds presence stats command to client command buffer
(`pipe.go`, current revision). -/
def Pipe.AddPresenceStats (p : Pipe) (channel : String) :
    Pipe × Option GoError :=
  p.add { Method := "presence_stats",
          Params := .strMap [("channel", channel)] }

/-- AddHistory adds history command to client command buffer
(`pipe.go`, current revision). -/
def Pipe.AddHistory (p : Pipe) (channel : String)
    (opts : List HistoryOption) : Pipe × Option GoError :=
  let options := Gocent.applyOpts opts {}
  p.add { Method := "history", Params := .history ⟨channel, options⟩ }

/-- AddHistoryRemove adds history remove command to client command buffer
(`pipe.go`, current revision). -/
def Pipe.AddHistoryRemove (p : Pipe) (channel : String) :
    Pipe × Option GoError :=
  p.add { Method := "history_remove",
          Params := .strMap [("channel", channel)] }

/-- AddChannels adds channels command to client command buffer
(`pipe.go`, current revision). -/
def Pipe.AddChannels (p : Pipe) (opts : List ChannelsOption) :
    Pipe × Option GoError :=
  let options := Gocent.applyOpts opts {}
  p.add { Method := "channels", Params := .channels ⟨options.Pattern⟩ }

/-- AddInfo adds info command to client command buffer
(`pipe.go`, current revision). -/
def Pipe.AddInfo (p : Pipe) : Pipe × Option GoError :=
  p.add { Method := "info", Params := .strMap [] }

/-! ## JSON marshaling (`encoding/json` as used by `Client.send`)

`Client.send` marshals each `Command` with `json.Encoder.Encode`, which
writes the JSON text of the value followed by one newline. The encoding
of the concrete request structs follows Go's struct-tag rules: fields in
declaration order, embedded option structs flattened, `omitempty` fields
dropped at their zero value, `json.RawMessage` emitted verbatim.
String-content escaping is not modelled (channel names, user IDs and raw
payloads are emitted verbatim); no claim under verification depends on
it. -/

/-- A JSON string literal (escaping of the content not modelled). -/
def q (s : String) : String := "\"" ++ s ++ "\""

/-- A JSON object from a list of optional fields (an `omitempty` field at
its zero value contributes `none`). Each field value is already JSON
text. -/
def jsonObj (fields : List (Option (String × String))) : String :=
  "\x7b" ++
    String.intercalate ","
      ((fields.filterMap id).map fun kv => q kv.1 ++ ":" ++ kv.2) ++
  "\x7d"

/-- A JSON array of string literals. -/
def jsonStrArr (xs : List String) : String :=
  "[" ++ String.intercalate "," (xs.map q) ++ "]"

/-- An always-present string field. -/
def strField (k v : String) : Option (String × String) := some (k, q v)

/-- An `omitempty` string field: dropped when empty. -/
def optStrField (k v : String) : Option (String × String) :=
  if v = "" then none else some (k, q v)

/-- An `omitempty` bool field: dropped when false. -/
def optBoolField (k : String) (v : Bool) : Option (String × String) :=
  if v then some (k, "true") else none

/-- An `omitempty` int field: dropped when zero. -/
def optIntField (k : String) (v : Int) : Option (String × String) :=
  if v = 0 then none else some (k, toString v)

/-- An `omitempty` Nat field: dropped when zero. -/
def optNatField (k : String) (v : Nat) : Option (String × String) :=
  if v = 0 then none else some (k, toString v)

/-- An `omitempty` `json.RawMessage` field: dropped when nil, emitted
verbatim otherwise. -/
def optRawField (k : String) (v : Option String) : Option (String × String) :=
  v.map fun raw => (k, raw)

/-- StreamPosition as JSON: both fields `omitempty`. -/
def marshalStreamPosition (sp : StreamPosition) : String :=
  jsonObj [optNatField "offset" sp.Offset, optStrField "epoch" sp.Epoch]

/-- An `omitempty` `*StreamPosition` field. -/
def optSPField (k : String) (v : Option StreamPosition) :
    Option (String × String) :=
  v.map fun sp => (k, marshalStreamPosition sp)

/-- Disconnect as JSON: `code` is `omitempty`, `reason` and `reconnect`
are always present. -/
def marshalDisconnect (d : Disconnect) : String :=
  jsonObj [optNatField "code" d.Code, strField "reason" d.Reason,
           some ("reconnect", if d.Reconnect then "true" else "false")]

/-- The JSON text of a Command's params, per request shape. Field order
and `omitempty` behaviour follow the struct declarations in `pipe.go`
and `options.go` (the `DisconnectOptions.Disconnect` and
`ClientWhitelist` fields carry no JSON tag, hence the Go field names and
no omission; a nil pointer or nil slice marshals as `null`). Go marshals
`map[string]interface{}` keys sorted; the maps built by `pipe.go` have at
most one key, so emitting them in construction order coincides. -/
def marshalParams : CommandParams → String
  | .publish r =>
      jsonObj [strField "channel" r.Channel, some ("data", r.Data),
               optBoolField "skip_history" r.PubOpts.SkipHistory]
  | .broadcast r =>
      jsonObj [some ("channels", jsonStrArr r.Channels),
               some ("data", r.Data),
               optBoolField "skip_history" r.PubOpts.SkipHistory]
  | .subscribe r =>
      jsonObj [strField "channel" r.Channel, strField "user" r.User,
               optRawField "info" r.SubOpts.Info,
               optBoolField "presence" r.SubOpts.Presence,
               optBoolField "join_leave" r.SubOpts.JoinLeave,
               optBoolField "position" r.SubOpts.Position,
               optBoolField "recover" r.SubOpts.Recover,
               optRawField "data" r.SubOpts.Data,
               optSPField "recover_since" r.SubOpts.RecoverSince,
               optStrField "client" r.SubOpts.ClientID]
  | .unsubscribe r =>
      jsonObj [strField "channel" r.Channel, strField "user" r.User,
               optStrField "client" r.UnsubOpts.ClientID]
  | .disconnect r =>
      jsonObj [strField "user" r.User,
               some ("Disconnect",
                 match r.DiscOpts.Disconnect with
                 | none => "null"
                 | some d => marshalDisconnect d),
               some ("ClientWhitelist",
                 match r.DiscOpts.ClientWhitelist with
                 | [] => "null"
                 | ws => jsonStrArr ws),
               optStrField "client" r.DiscOpts.ClientID]
  | .history r =>
      jsonObj [strField "channel" r.Channel,
               optSPField "since" r.HistOpts.Since,
               optIntField "limit" r.HistOpts.Limit,
               optBoolField "reverse" r.HistOpts.Reverse]
  | .channels r =>
      jsonObj [optStrField "pattern" r.Pattern]
  | .strMap m =>
      jsonObj (m.map fun kv => strField kv.1 kv.2)

/-- The JSON text of one Command envelope: optional `uid`, then `method`
and `params` (spec §6 wire protocol; `pipe.go` never sets `uid`). -/
def marshalCommand (cmd : Command) : String :=
  jsonObj [cmd.UID.map fun u => ("uid", q u),
           strField "method" cmd.Method,
           some ("params", marshalParams cmd.Params)]

/-- The request body built by `Client.send` (`doc.go`, current
revision): a `bytes.Buffer` into which `json.Encoder.Encode` writes each
command in turn, each write appending the command's JSON text and a
newline. -/
def requestBody (commands : List Command) : String :=
  commands.foldl (fun buf cmd => buf ++ (marshalCommand cmd ++ "\n")) ""

/-- The body shape the spec rules out: the whole command list marshaled
as one JSON array, as the v1 client's `send` produced via
`json.Marshal(cmds)` (`main.go` lines 434–448). -/
def requestBodyArray (commands : List Command) : String :=
  "[" ++ String.intercalate "," (commands.map marshalCommand) ++ "]"

/-! ## Result decoding (`doc.go` decode helpers)

`decodePublish` and `decodeHistory` are `json.Unmarshal` into the typed
result record; the record types are modelled from the spec (their
declaring file is absent from the sources), and `json.Unmarshal`'s
behaviour on those shapes is modelled field by field: an absent field
leaves the zero value, a present field of the wrong type fails, a
non-object (other than `null`) payload fails. -/

/-- Read an unsigned integer field of an unmarshal target object. -/
def readNatField (fields : List (String × JsonVal)) (k : String) :
    Except String Nat :=
  match fields.lookup k with
  | none => .ok 0
  | some (.num n) =>
      if n < 0 then .error ("json: cannot unmarshal negative " ++ k)
      else .ok n.toNat
  | some _ => .error ("json: cannot unmarshal field " ++ k)

/-- Read a string field of an unmarshal target object. -/
def readStrField (fields : List (String × JsonVal)) (k : String) :
    Except String String :=
  match fields.lookup k with
  | none => .ok ""
  | some (.str s) => .ok s
  | some _ => .error ("json: cannot unmarshal field " ++ k)

/-- Read an array field of an unmarshal target object. -/
def readArrField (fields : List (String × JsonVal)) (k : String) :
    Except String (List JsonVal) :=
  match fields.lookup k with
  | none => .ok []
  | some (.arr xs) => .ok xs
  | some (.null) => .ok []
  | some _ => .error ("json: cannot unmarshal field " ++ k)

/-- decodePublish (`doc.go`): `json.Unmarshal(result, &r)` into a
PublishResult; returns the zero record alongside the error on failure
(the error is the second return in Go, here the `Except` error). -/
def decodePublish (result : JsonVal) : Except String PublishResult :=
  match result with
  | .null => .ok {}
  | .obj fields =>
      match readNatField fields "offset" with
      | .error m => .error m
      | .ok off =>
          match readStrField fields "epoch" with
          | .error m => .error m
          | .ok ep => .ok { Offset := off, Epoch := ep }
  | _ => .error "json: cannot unmarshal into PublishResult"

/-- decodeHistory (`doc.go`): `json.Unmarshal(result, &r)` into a
HistoryResult. -/
def decodeHistory (result : JsonVal) : Except String HistoryResult :=
  match result with
  | .null => .ok {}
  | .obj fields =>
      match readArrField fields "publications" with
      | .error m => .error m
      | .ok pubs =>
          match readNatField fields "offset" with
          | .error m => .error m
          | .ok off =>
              match readStrField fields "epoch" with
              | .error m => .error m
              | .ok ep => .ok { Publications := pubs, Offset := off, Epoch := ep }
  | _ => .error "json: cannot unmarshal into HistoryResult"

/-! ## Client and transport (`doc.go`, current revision) -/

/-- Client is API client for project registered in server (`doc.go`).
The injected HTTP capability (`httpClient.Do` with the request context)
is passed to each sending operation as a function. -/
structure Client where
  endpoint : String
  getEndpoint : Option (Unit → Except String String) := none
  apiKey : String := ""

/-- The single HTTP POST request `Client.send` issues. -/
structure HttpRequest where
  url : String
  body : String
  headers : List (String × String)

/-- The HTTP capability's successful response: a status code and the
response body as the stream of outcomes of the newline-delimited JSON
decode loop (each element either decoded to a `Reply` or failed). -/
structure HttpResponse where
  statusCode : Nat
  body : List (Except String Reply)

/-- The injected HTTP capability: `do(request) -> response | transport
error` (spec §6); a cancelled context surfaces as the error case. -/
def HttpDo := HttpRequest → Except String HttpResponse

/-- `Client.Pipe` (`doc.go`): a fresh Pipe with an empty command
buffer. -/
def Client.Pipe (_c : Client) : Pipe := ⟨[]⟩

/-- Endpoint resolution in `Client.send` (`doc.go`): `c.getEndpoint()`
when set, the static `c.endpoint` otherwise. -/
def Client.resolveEndpoint (c : Client) : Except String String :=
  match c.getEndpoint with
  | some f => f ()
  | none => .ok c.endpoint

/-- The headers `Client.send` sets: `Authorization: apikey <key>` when an
API key is configured, and `Content-Type: application/json`. -/
def Client.headersFor (c : Client) : List (String × String) :=
  (if c.apiKey = "" then [] else [("Authorization", "apikey " ++ c.apiKey)])
    ++ [("Content-Type", "application/json")]

/-- The response decode loop of `Client.send` (`doc.go`): decode one
`Reply` at a time until end of stream; a failing element aborts the whole
call with that decode error. -/
def parseReplies : List (Except String Reply) → Except GoError (List Reply)
  | [] => .ok []
  | .error msg :: _ => .error (.streamDecode msg)
  | .ok r :: rest =>
      match parseReplies rest with
      | .error e => .error e
      | .ok rs => .ok (r :: rs)

/-- `Client.send` (`doc.go`, current revision): marshal the commands one
per line into the request body, resolve the endpoint, issue one POST via
the injected HTTP capability, fail with `ErrStatusCode` on a non-200
status, otherwise run the reply decode loop. -/
def Client.send (c : Client) (httpDo : HttpDo) (commands : List Command) :
    Except GoError (List Reply) :=
  match c.resolveEndpoint with
  | .error e => .error (.transport e)
  | .ok endpoint =>
      match httpDo { url := endpoint, body := requestBody commands,
                     headers := c.headersFor } with
      | .error e => .error (.transport e)
      | .ok resp =>
          if resp.statusCode ≠ 200 then .error (ErrStatusCode resp.statusCode)
          else parseReplies resp.body

/-- SendPipe sends Commands collected in Pipe to Centrifugo (`doc.go`,
current revision): reject an empty pipe, send, and require exactly one
reply per command. The method only reads `pipe.commands`; the returned
Pipe is the state-passing image of the untouched receiver. -/
def Client.SendPipe (c : Client) (httpDo : HttpDo) (pipe : Gocent.Pipe) :
    Gocent.Pipe × Except GoError (List Reply) :=
  if pipe.commands.length = 0 then (pipe, .error ErrPipeEmpty)
  else
    match c.send httpDo pipe.commands with
    | .error err => (pipe, .error err)
    | .ok result =>
        if result.length ≠ pipe.commands.length then
          (pipe, .error ErrMalformedResponse)
        else (pipe, .ok result)

/-- Publish allows to publish data to channel (`doc.go`, current
revision): one-command pipe, SendPipe, inspect `result[0]`, surface a
reply error without decoding, otherwise decode. Go returns the pair
`(PublishResult{}, err)`; the second component is the Go error.
`GoError.indexOutOfRange` models the runtime panic of `result[0]` on an
empty slice — unreachable, since SendPipe returns one reply per
command. -/
def Client.Publish (c : Client) (httpDo : HttpDo) (channel : String)
    (data : String) (opts : List PublishOption) :
    PublishResult × Option GoError :=
  let pipe := c.Pipe
  match pipe.AddPublish channel data opts with
  | (_, some err) => ({}, some err)
  | (pipe, none) =>
      match (c.SendPipe httpDo pipe).2 with
      | .error err => ({}, some err)
      | .ok result =>
          match result with
          | [] => ({}, some .indexOutOfRange)
          | resp :: _ =>
              match resp.Error with
              | some e => ({}, some (.replyError e))
              | none =>
                  match decodePublish resp.Result with
                  | .error msg => ({}, some (.decodeError msg))
                  | .ok r => (r, none)

/-- History returns channel history (`doc.go`, current revision): the
same single-command shape as Publish with the history decoder. -/
def Client.History (c : Client) (httpDo : HttpDo) (channel : String)
    (opts : List HistoryOption) : HistoryResult × Option GoError :=
  let pipe := c.Pipe
  match pipe.AddHistory channel opts with
  | (_, some err) => ({}, some err)
  | (pipe, none) =>
      match (c.SendPipe httpDo pipe).2 with
      | .error err => ({}, some err)
      | .ok result =>
          match result with
          | [] => ({}, some .indexOutOfRange)
          | resp :: _ =>
              match resp.Error with
              | some e => ({}, some (.replyError e))
              | none =>
                  match decodeHistory resp.Result with
                  | .error msg => ({}, some (.decodeError msg))
                  | .ok r => (r, none)

/-! ## Reference semantics of `json.RawMessage` option payloads

Go copies `*options` into the request struct by value, but a
`json.RawMessage` field is a slice header: the copy shares the backing
byte array with the caller's slice. To settle the frame claim about
mutating those payloads after enqueuing, this model makes the backing
store explicit: a heap of byte buffers, with `json.RawMessage` fields
holding an address (`none` = nil slice). Scalar fields are plain values,
exactly as in the value model above. `materializeSubscribe` is the read
the serializer performs at send time. -/

/-- The backing store of byte buffers Go slices point into. -/
abbrev Heap := List (List Nat)

/-- Dereference one buffer (out-of-range reads the empty buffer; the
counterexample and theorems only use in-range addresses). -/
def heapRead (h : Heap) (a : Nat) : List Nat := h.getD a []

/-- Overwrite the bytes of one buffer in place — the caller-side mutation
`copy(raw, newBytes)` of a slice's backing array. -/
def heapWrite (h : Heap) (a : Nat) (bs : List Nat) : Heap := h.set a bs

/-- SubscribeOptions with the two `json.RawMessage` fields as heap
addresses (`options.go` shapes, reference semantics). -/
structure SubscribeOptionsRef where
  Info : Option Nat := none
  Presence : Bool := false
  JoinLeave : Bool := false
  Position : Bool := false
  Recover : Bool := false
  Data : Option Nat := none
  RecoverSince : Option StreamPosition := none
  ClientID : String := ""
deriving DecidableEq, Repr

/-- SubscribeOption in the reference model. -/
def SubscribeOptionRef := SubscribeOptionsRef → SubscribeOptionsRef

/-- WithSubscribeInfo in the reference model: stores the slice header
(the address) of the caller's RawMessage. -/
def WithSubscribeInfoRef (chanInfo : Option Nat) : SubscribeOptionRef :=
  fun opts => { opts with Info := chanInfo }

/-- WithSubscribeData in the reference model. -/
def WithSubscribeDataRef (data : Option Nat) : SubscribeOptionRef :=
  fun opts => { opts with Data := data }

/-- subscribeRequest in the reference model. -/
structure subscribeRequestRef where
  Channel : String
  User : String
  SubOpts : SubscribeOptionsRef
deriving DecidableEq, Repr

/-- The request struct `Pipe.AddSubscribe` buffers: decorators applied to
a fresh record, then the record copied by value (`SubscribeOptions:
*options`) — the struct is copied, the RawMessage addresses with it. -/
def mkSubscribeRequestRef (channel : String) (user : String)
    (opts : List SubscribeOptionRef) : subscribeRequestRef :=
  ⟨channel, user, Gocent.applyOpts opts {}⟩

/-- The params of a buffered subscribe command as the serializer reads
them at send time: raw payloads dereferenced to their current bytes. -/
structure subscribeRequestBytes where
  Channel : String
  User : String
  Info : Option (List Nat)
  Presence : Bool
  JoinLeave : Bool
  Position : Bool
  Recover : Bool
  Data : Option (List Nat)
  RecoverSince : Option StreamPosition
  ClientID : String
deriving DecidableEq, Repr

/-- Dereference an optional RawMessage address. -/
def readRawRef (h : Heap) : Option Nat → Option (List Nat)
  | none => none
  | some a => some (heapRead h a)

/-- Read a buffered subscribe request through the heap. -/
def materializeSubscribe (h : Heap) (r : subscribeRequestRef) :
    subscribeRequestBytes :=
  { Channel := r.Channel
    User := r.User
    Info := readRawRef h r.SubOpts.Info
    Presence := r.SubOpts.Presence
    JoinLeave := r.SubOpts.JoinLeave
    Position := r.SubOpts.Position
    Recover := r.SubOpts.Recover
    Data := readRawRef h r.SubOpts.Data
    RecoverSince := r.SubOpts.RecoverSince
    ClientID := r.SubOpts.ClientID }

/-! ## Decorator algebra predicates -/

/-- A decorator family is idempotent: applying the same decorator twice
with the same value equals applying it once. -/
def DecoratorIdempotent {α β : Type} (w : β → α → α) : Prop :=
  ∀ (o : α) (v : β), w v (w v o) = w v o

/-- A decorator family is last-write-wins on its field: a later
application with any value overrides an earlier one. -/
def DecoratorLastWriteWins {α β : Type} (w : β → α → α) : Prop :=
  ∀ (o : α) (v v' : β), w v' (w v o) = w v' o

/-! ## Helper lemmas -/

/-- `String.append` acts on the character lists. -/
theorem strData_append (s t : String) : (s ++ t).data = s.data ++ t.data := by
  cases s; cases t; rfl

/-- Strings are equal when their character lists are. -/
theorem strExt {s t : String} (h : s.data = t.data) : s = t := by
  cases s; cases t; cases h; rfl

/-- Appending the empty string on the right. -/
theorem strAppend_empty (s : String) : s ++ "" = s :=
  strExt (by simp [strData_append])

/-- Appending the empty string on the left. -/
theorem strEmpty_append (s : String) : "" ++ s = s :=
  strExt (by simp [strData_append])

/-- String append is associative. -/
theorem strAppend_assoc (a b c : String) : a ++ b ++ c = a ++ (b ++ c) :=
  strExt (by simp [strData_append])

/-- A `jsonObj` starts with an opening brace. -/
theorem jsonObj_head (fields : List (Option (String × String))) :
    (jsonObj fields).data.head? = some '\x7b' := by
  unfold jsonObj
  rw [strData_append, strData_append]
  rfl

/-- Every marshaled command starts with an opening brace. -/
theorem marshalCommand_head (cmd : Command) :
    (marshalCommand cmd).data.head? = some '\x7b' :=
  jsonObj_head _

/-- Shifting the accumulator out of the body-building fold of
`Client.send`. -/
theorem requestBody_foldl_acc (cmds : List Command) :
    ∀ acc : String,
      cmds.foldl (fun buf cmd => buf ++ (marshalCommand cmd ++ "\n")) acc
        = acc ++ requestBody cmds := by
  induction cmds with
  | nil => intro acc; exact (strAppend_empty acc).symm
  | cons c cs ih =>
      intro acc
      show cs.foldl _ (acc ++ _) = _
      rw [ih (acc ++ (marshalCommand c ++ "\n"))]
      rw [strAppend_assoc]
      congr 1
      show _ = requestBody (c :: cs)
      show _ = cs.foldl _ (("" : String) ++ _)
      rw [ih (("" : String) ++ (marshalCommand c ++ "\n")),
          strEmpty_append]

/-- The request body of a non-empty buffer: the first command's line
followed by the body of the rest. -/
theorem requestBody_cons (c : Command) (cs : List Command) :
    requestBody (c :: cs) = marshalCommand c ++ "\n" ++ requestBody cs := by
  show cs.foldl _ (("" : String) ++ _) = _
  rw [requestBody_foldl_acc cs (("" : String) ++ (marshalCommand c ++ "\n")),
      strEmpty_append, strAppend_assoc]

/-- The prefix of an append at the length of the left part. -/
theorem take_len_append {α : Type} (l l' : List α) :
    (l ++ l').take l.length = l :=
  List.take_left l l'

/-- The shared specification of `Pipe.add`: nil error, length grows by
one, the old buffer is the untouched prefix. -/
theorem add_spec (p : Pipe) (cmd : Command) :
    (p.add cmd).2 = none ∧
    (p.add cmd).1.commands.length = p.commands.length + 1 ∧
    (p.add cmd).1.commands.take p.commands.length = p.commands :=
  ⟨rfl, by simp [Pipe.add], by simp [Pipe.add, take_len_append]⟩

/-- The shared specification of `Pipe.addMany`. -/
theorem addMany_spec (p : Pipe) (cmds : List Command) :
    (p.addMany cmds).2 = none ∧
    (p.addMany cmds).1.commands.length = p.commands.length + cmds.length ∧
    (p.addMany cmds).1.commands.take p.commands.length = p.commands :=
  ⟨rfl, by simp [Pipe.addMany], by simp [Pipe.addMany, take_len_append]⟩

/-- C2: every `Add*` call on a Pipe returns success (nil error), grows
the buffer by exactly one command (by N for `AddPublishRequests` with N
requests), and leaves all previously buffered commands unchanged as the
prefix, so the new command sits at the end and enqueue order is
preserved. -/
theorem add_ops_append_invariant :
    (∀ (p : Pipe) (ch data : String) (opts : List PublishOption),
       (p.AddPublish ch data opts).2 = none ∧
       (p.AddPublish ch data opts).1.commands.length = p.commands.length + 1 ∧
       (p.AddPublish ch data opts).1.commands.take p.commands.length = p.commands) ∧
    (∀ (p : Pipe) (chs : List String) (data : String) (opts : List PublishOption),
       (p.AddBroadcast chs data opts).2 = none ∧
       (p.AddBroadcast chs data opts).1.commands.length = p.commands.length + 1 ∧
       (p.AddBroadcast chs data opts).1.commands.take p.commands.length = p.commands) ∧
    (∀ (p : Pipe) (ch user : String) (opts : List SubscribeOption),
       (p.AddSubscribe ch user opts).2 = none ∧
       (p.AddSubscribe ch user opts).1.commands.length = p.commands.length + 1 ∧
       (p.AddSubscribe ch user opts).1.commands.take p.commands.length = p.commands) ∧
    (∀ (p : Pipe) (ch user : String) (opts : List UnsubscribeOption),
       (p.AddUnsubscribe ch user opts).2 = none ∧
       (p.AddUnsubscribe ch user opts).1.commands.length = p.commands.length + 1 ∧
       (p.AddUnsubscribe ch user opts).1.commands.take p.commands.length = p.commands) ∧
    (∀ (p : Pipe) (user : String) (opts : List DisconnectOption),
       (p.AddDisconnect user opts).2 = none ∧
       (p.AddDisconnect user opts).1.commands.length = p.commands.length + 1 ∧
       (p.AddDisconnect user opts).1.commands.take p.commands.length = p.commands) ∧
    (∀ (p : Pipe) (ch : String),
       (p.AddPresence ch).2 = none ∧
       (p.AddPresence ch).1.commands.length = p.commands.length + 1 ∧
       (p.AddPresence ch).1.commands.take p.commands.length = p.commands) ∧
    (∀ (p : Pipe) (ch : String),
       (p.AddPresenceStats ch).2 = none ∧
       (p.AddPresenceStats ch).1.commands.length = p.commands.length + 1 ∧
       (p.AddPresenceStats ch).1.commands.take p.commands.length = p.commands) ∧
    (∀ (p : Pipe) (ch : String) (opts : List HistoryOption),
       (p.AddHistory ch opts).2 = none ∧
       (p.AddHistory ch opts).1.commands.length = p.commands.length + 1 ∧
       (p.AddHistory ch opts).1.commands.take p.commands.length = p.commands) ∧
    (∀ (p : Pipe) (ch : String),
       (p.AddHistoryRemove ch).2 = none ∧
       (p.AddHistoryRemove ch).1.commands.length = p.commands.length + 1 ∧
       (p.AddHistoryRemove ch).1.commands.take p.commands.length = p.commands) ∧
    (∀ (p : Pipe) (opts : List ChannelsOption),
       (p.AddChannels opts).2 = none ∧
       (p.AddChannels opts).1.commands.length = p.commands.length + 1 ∧
       (p.AddChannels opts).1.commands.take p.commands.length = p.commands) ∧
    (∀ (p : Pipe),
       p.AddInfo.2 = none ∧
       p.AddInfo.1.commands.length = p.commands.length + 1 ∧
       p.AddInfo.1.commands.take p.commands.length = p.commands) ∧
    (∀ (p : Pipe) (reqs : List PublishRequest),
       (p.AddPublishRequests reqs).2 = none ∧
       (p.AddPublishRequests reqs).1.commands.length
           = p.commands.length + reqs.length ∧
       (p.AddPublishRequests reqs).1.commands.take p.commands.length
           = p.commands) := by
  refine ⟨fun p _ _ _ => add_spec p _, fun p _ _ _ => add_spec p _,
          fun p _ _ _ => add_spec p _, fun p _ _ _ => add_spec p _,
          fun p _ _ => add_spec p _, fun p _ => add_spec p _,
          fun p _ => add_spec p _, fun p _ _ => add_spec p _,
          fun p _ => add_spec p _, fun p _ => add_spec p _,
          fun p => add_spec p _, fun p reqs => ?_⟩
  have h := addMany_spec p (reqs.map fun request =>
    { Method := "publish", Params := .publish request })
  exact ⟨h.1, by simpa using h.2.1, h.2.2⟩

/-- C1 (the code against the claim): the earlier revision of
`Pipe.AddSubscribe` (`pipe.go` lines 84–98) appends a Command whose
method is `"unsubscribe"`, not the subscribe operation's method name —
the current revision (lines 336–350) appends `"subscribe"` as the claim
states. Evaluated at the concrete input channel `"ch"`, user
`"user42"`. -/
theorem addSubscribeOld_method_is_unsubscribe :
    ((Pipe.mk []).AddSubscribeOld "ch" "user42" []).1.commands.map Command.Method
        = ["unsubscribe"] ∧
    ((Pipe.mk []).AddSubscribe "ch" "user42" []).1.commands.map Command.Method
        = ["subscribe"] ∧
    ("unsubscribe" : String) ≠ "subscribe" :=
  ⟨rfl, rfl, by decide⟩

/-- C3: sending a Pipe whose command buffer is empty — in particular one
that was just Reset — fails with ErrPipeEmpty, for every injected HTTP
capability whatsoever: the capability is never consulted. -/
theorem sendPipe_empty_pipeEmpty :
    ∀ (c : Client) (httpDo : HttpDo) (p : Pipe),
      (p.commands = [] → (c.SendPipe httpDo p).2 = .error ErrPipeEmpty) ∧
      (c.SendPipe httpDo p.Reset).2 = .error ErrPipeEmpty := by
  intro c d p
  constructor
  · intro h
    simp [Client.SendPipe, h]
  · simp [Client.SendPipe, Pipe.Reset]

/-- Witness for C3 at a concrete client, transport and empty pipe. -/
theorem sendPipe_empty_pipeEmpty_witness :
    ((Client.mk "http://localhost:8000/api" none "").SendPipe
        (fun _ => .ok ⟨200, []⟩) ⟨[]⟩).2 = .error ErrPipeEmpty :=
  (sendPipe_empty_pipeEmpty (Client.mk "http://localhost:8000/api" none "")
    (fun _ => .ok ⟨200, []⟩) ⟨[]⟩).1 rfl

/-- C10: SendPipe never mutates the Pipe it is given — the returned
state is the argument, whatever the transport outcome; a second SendPipe
on the same pipe therefore repeats the identical exchange; only an
explicit Reset empties the buffer. -/
theorem sendPipe_preserves_pipe :
    ∀ (c : Client) (httpDo : HttpDo) (p : Pipe),
      (c.SendPipe httpDo p).1 = p ∧
      c.SendPipe httpDo (c.SendPipe httpDo p).1 = c.SendPipe httpDo p ∧
      p.Reset.commands = [] := by
  intro c d p
  have h1 : (c.SendPipe d p).1 = p := by
    by_cases h : p.commands.length = 0
    · simp [Client.SendPipe, h]
    · simp only [Client.SendPipe, if_neg h]
      cases hs : c.send d p.commands with
      | error e => rfl
      | ok result =>
          by_cases hl : result.length ≠ p.commands.length <;> simp [hl]
  exact ⟨h1, by rw [h1], rfl⟩

/-- C6: every option decorator of `options.go` is idempotent and
last-write-wins, sets exactly its one field to the supplied value, and
leaves every other field of the options record unchanged; since an
`Add*` call builds its params payload from the resulting options record,
equal records give identical params payloads. -/
theorem option_decorators_algebra :
    (DecoratorIdempotent WithSkipHistory ∧
     DecoratorLastWriteWins WithSkipHistory ∧
     ∀ (o : PublishOptions) (v : Bool), (WithSkipHistory v o).SkipHistory = v) ∧
    (DecoratorIdempotent WithSubscribeInfo ∧
     DecoratorLastWriteWins WithSubscribeInfo ∧
     ∀ (o : SubscribeOptions) (v : Option String),
       (WithSubscribeInfo v o).Info = v ∧
       (WithSubscribeInfo v o).Presence = o.Presence ∧
       (WithSubscribeInfo v o).JoinLeave = o.JoinLeave ∧
       (WithSubscribeInfo v o).Position = o.Position ∧
       (WithSubscribeInfo v o).Recover = o.Recover ∧
       (WithSubscribeInfo v o).Data = o.Data ∧
       (WithSubscribeInfo v o).RecoverSince = o.RecoverSince ∧
       (WithSubscribeInfo v o).ClientID = o.ClientID) ∧
    (DecoratorIdempotent WithPresence ∧
     DecoratorLastWriteWins WithPresence ∧
     ∀ (o : SubscribeOptions) (v : Bool),
       (WithPresence v o).Presence = v ∧
       (WithPresence v o).Info = o.Info ∧
       (WithPresence v o).JoinLeave = o.JoinLeave ∧
       (WithPresence v o).Position = o.Position ∧
       (WithPresence v o).Recover = o.Recover ∧
       (WithPresence v o).Data = o.Data ∧
       (WithPresence v o).RecoverSince = o.RecoverSince ∧
       (WithPresence v o).ClientID = o.ClientID) ∧
    (DecoratorIdempotent WithJoinLeave ∧
     DecoratorLastWriteWins WithJoinLeave ∧
     ∀ (o : SubscribeOptions) (v : Bool),
       (WithJoinLeave v o).JoinLeave = v ∧
       (WithJoinLeave v o).Info = o.Info ∧
       (WithJoinLeave v o).Presence = o.Presence ∧
       (WithJoinLeave v o).Position = o.Position ∧
       (WithJoinLeave v o).Recover = o.Recover ∧
       (WithJoinLeave v o).Data = o.Data ∧
       (WithJoinLeave v o).RecoverSince = o.RecoverSince ∧
       (WithJoinLeave v o).ClientID = o.ClientID) ∧
    (DecoratorIdempotent WithPosition ∧
     DecoratorLastWriteWins WithPosition ∧
     ∀ (o : SubscribeOptions) (v : Bool),
       (WithPosition v o).Position = v ∧
       (WithPosition v o).Info = o.Info ∧
       (WithPosition v o).Presence = o.Presence ∧
       (WithPosition v o).JoinLeave = o.JoinLeave ∧
       (WithPosition v o).Recover = o.Recover ∧
       (WithPosition v o).Data = o.Data ∧
       (WithPosition v o).RecoverSince = o.RecoverSince ∧
       (WithPosition v o).ClientID = o.ClientID) ∧
    (DecoratorIdempotent WithRecover ∧
     DecoratorLastWriteWins WithRecover ∧
     ∀ (o : SubscribeOptions) (v : Bool),
       (WithRecover v o).Recover = v ∧
       (WithRecover v o).Info = o.Info ∧
       (WithRecover v o).Presence = o.Presence ∧
       (WithRecover v o).JoinLeave = o.JoinLeave ∧
       (WithRecover v o).Position = o.Position ∧
       (WithRecover v o).Data = o.Data ∧
       (WithRecover v o).RecoverSince = o.RecoverSince ∧
       (WithRecover v o).ClientID = o.ClientID) ∧
    (DecoratorIdempotent WithSubscribeClient ∧
     DecoratorLastWriteWins WithSubscribeClient ∧
     ∀ (o : SubscribeOptions) (v : String),
       (WithSubscribeClient v o).ClientID = v ∧
       (WithSubscribeClient v o).Info = o.Info ∧
       (WithSubscribeClient v o).Presence = o.Presence ∧
       (WithSubscribeClient v o).JoinLeave = o.JoinLeave ∧
       (WithSubscribeClient v o).Position = o.Position ∧
       (WithSubscribeClient v o).Recover = o.Recover ∧
       (WithSubscribeClient v o).Data = o.Data ∧
       (WithSubscribeClient v o).RecoverSince = o.RecoverSince) ∧
    (DecoratorIdempotent WithSubscribeData ∧
     DecoratorLastWriteWins WithSubscribeData ∧
     ∀ (o : SubscribeOptions) (v : Option String),
       (WithSubscribeData v o).Data = v ∧
       (WithSubscribeData v o).Info = o.Info ∧
       (WithSubscribeData v o).Presence = o.Presence ∧
       (WithSubscribeData v o).JoinLeave = o.JoinLeave ∧
       (WithSubscribeData v o).Position = o.Position ∧
       (WithSubscribeData v o).Recover = o.Recover ∧
       (WithSubscribeData v o).RecoverSince = o.RecoverSince ∧
       (WithSubscribeData v o).ClientID = o.ClientID) ∧
    (DecoratorIdempotent WithRecoverSince ∧
     DecoratorLastWriteWins WithRecoverSince ∧
     ∀ (o : SubscribeOptions) (v : Option StreamPosition),
       (WithRecoverSince v o).RecoverSince = v ∧
       (WithRecoverSince v o).Info = o.Info ∧
       (WithRecoverSince v o).Presence = o.Presence ∧
       (WithRecoverSince v o).JoinLeave = o.JoinLeave ∧
       (WithRecoverSince v o).Position = o.Position ∧
       (WithRecoverSince v o).Recover = o.Recover ∧
       (WithRecoverSince v o).Data = o.Data ∧
       (WithRecoverSince v o).ClientID = o.ClientID) ∧
    (DecoratorIdempotent WithUnsubscribeClient ∧
     DecoratorLastWriteWins WithUnsubscribeClient ∧
     ∀ (o : UnsubscribeOptions) (v : String),
       (WithUnsubscribeClient v o).ClientID = v) ∧
    (DecoratorIdempotent WithDisconnect ∧
     DecoratorLastWriteWins WithDisconnect ∧
     ∀ (o : DisconnectOptions) (v : Option Disconnect),
       (WithDisconnect v o).Disconnect = v ∧
       (WithDisconnect v o).ClientWhitelist = o.ClientWhitelist ∧
       (WithDisconnect v o).ClientID = o.ClientID) ∧
    (DecoratorIdempotent WithDisconnectClient ∧
     DecoratorLastWriteWins WithDisconnectClient ∧
     ∀ (o : DisconnectOptions) (v : String),
       (WithDisconnectClient v o).ClientID = v ∧
       (WithDisconnectClient v o).Disconnect = o.Disconnect ∧
       (WithDisconnectClient v o).ClientWhitelist = o.ClientWhitelist) ∧
    (DecoratorIdempotent WithDisconnectClientWhitelist ∧
     DecoratorLastWriteWins WithDisconnectClientWhitelist ∧
     ∀ (o : DisconnectOptions) (v : List String),
       (WithDisconnectClientWhitelist v o).ClientWhitelist = v ∧
       (WithDisconnectClientWhitelist v o).Disconnect = o.Disconnect ∧
       (WithDisconnectClientWhitelist v o).ClientID = o.ClientID) ∧
    (DecoratorIdempotent WithLimit ∧
     DecoratorLastWriteWins WithLimit ∧
     ∀ (o : HistoryOptions) (v : Int),
       (WithLimit v o).Limit = v ∧
       (WithLimit v o).Since = o.Since ∧
       (WithLimit v o).Reverse = o.Reverse) ∧
    (DecoratorIdempotent WithSince ∧
     DecoratorLastWriteWins WithSince ∧
     ∀ (o : HistoryOptions) (v : Option StreamPosition),
       (WithSince v o).Since = v ∧
       (WithSince v o).Limit = o.Limit ∧
       (WithSince v o).Reverse = o.Reverse) ∧
    (DecoratorIdempotent WithReverse ∧
     DecoratorLastWriteWins WithReverse ∧
     ∀ (o : HistoryOptions) (v : Bool),
       (WithReverse v o).Reverse = v ∧
       (WithReverse v o).Since = o.Since ∧
       (WithReverse v o).Limit = o.Limit) ∧
    (DecoratorIdempotent WithPattern ∧
     DecoratorLastWriteWins WithPattern ∧
     ∀ (o : ChannelsOptions) (v : String),
       (WithPattern v o).Pattern = v) := by
  simp only [DecoratorIdempotent, DecoratorLastWriteWins]
  repeat' apply And.intro
  all_goals intros
  all_goals repeat' apply And.intro
  all_goals rfl

/-- C4: for a non-empty pipe, when the exchange succeeds (status 200,
reply stream parsed) but produced a number of replies different from the
number of commands sent, SendPipe fails with ErrMalformedResponse and
returns no replies. -/
theorem sendPipe_count_mismatch (c : Client) (httpDo : HttpDo) (p : Pipe)
    (result : List Reply)
    (hne : p.commands ≠ [])
    (hsend : c.send httpDo p.commands = .ok result)
    (hlen : result.length ≠ p.commands.length) :
    (c.SendPipe httpDo p).2 = .error ErrMalformedResponse := by
  have h0 : ¬ p.commands.length = 0 := by
    simpa [List.length_eq_zero] using hne
  simp [Client.SendPipe, h0, hsend, hlen]

/-- Witness for C4: a two-command pipe answered with a single reply. -/
theorem sendPipe_count_mismatch_witness :
    ((Client.mk "http://localhost:8000/api" none "").SendPipe
        (fun _ => .ok ⟨200, [.ok ⟨none, .null⟩]⟩)
        ⟨[⟨none, "presence", .strMap [("channel", "x")]⟩,
          ⟨none, "info", .strMap []⟩]⟩).2 = .error ErrMalformedResponse :=
  sendPipe_count_mismatch (Client.mk "http://localhost:8000/api" none "")
    (fun _ => .ok ⟨200, [.ok ⟨none, .null⟩]⟩)
    ⟨[⟨none, "presence", .strMap [("channel", "x")]⟩,
      ⟨none, "info", .strMap []⟩]⟩
    [⟨none, .null⟩] (by simp) rfl (by simp)

/-- C5: the request body built by send is newline-delimited JSON — each
command independently marshaled and written as its own line (the body of
a non-empty buffer is the first command's JSON text plus a newline,
followed by the body of the rest; the empty buffer gives the empty
body), and for every non-empty command list the body differs from the
single JSON array of those same commands (the shape the v1 client's
`json.Marshal(cmds)` produced). -/
theorem requestBody_is_ndjson :
    (∀ (c : Command) (cs : List Command),
        requestBody (c :: cs) = marshalCommand c ++ "\n" ++ requestBody cs) ∧
    requestBody [] = "" ∧
    (∀ cmds : List Command,
        cmds ≠ [] → requestBody cmds ≠ requestBodyArray cmds) := by
  refine ⟨requestBody_cons, rfl, ?_⟩
  intro cmds hne heq
  match cmds, hne with
  | c :: cs, _ =>
    have h1 : (requestBody (c :: cs)).data.head? = some '\x7b' := by
      rw [requestBody_cons, strData_append, strData_append,
          List.head?_append, List.head?_append, marshalCommand_head]
      rfl
    have h2 : (requestBodyArray (c :: cs)).data.head? = some '[' := by
      unfold requestBodyArray
      rw [strData_append, List.head?_append]
      rfl
    rw [heq, h2] at h1
    exact absurd h1 (by decide)

/-- Witness for C5 at the spec's scenario: two publish commands for
channel `"chat"`. -/
theorem requestBody_is_ndjson_witness :
    requestBody
        ((((Pipe.mk []).AddPublish "chat" "\x7b\"input\":\"test\"\x7d" []).1.AddPublish
            "chat" "\x7b\"input\":\"test2\"\x7d" []).1.commands)
      ≠ requestBodyArray
        ((((Pipe.mk []).AddPublish "chat" "\x7b\"input\":\"test\"\x7d" []).1.AddPublish
            "chat" "\x7b\"input\":\"test2\"\x7d" []).1.commands) :=
  requestBody_is_ndjson.2.2 _ (by simp [Pipe.AddPublish, Pipe.add])

/-- C9: when the HTTP exchange completes with any status other than 200,
send fails with ErrStatusCode carrying that status, whatever the response
body holds (even an unparseable stream: no replies are parsed), and
SendPipe on a non-empty pipe propagates the same error with no reply
sequence. -/
theorem send_non200_statusCode (c : Client) (hc : c.getEndpoint = none)
    (cmds : List Command) (code : Nat) (hcode : code ≠ 200)
    (body : List (Except String Reply)) (p : Pipe) (hp : p.commands ≠ []) :
    c.send (fun _ => .ok ⟨code, body⟩) cmds = .error (ErrStatusCode code) ∧
    (c.SendPipe (fun _ => .ok ⟨code, body⟩) p).2 = .error (ErrStatusCode code) := by
  have hsend : ∀ cs : List Command,
      c.send (fun _ => .ok ⟨code, body⟩) cs = .error (ErrStatusCode code) := by
    intro cs
    simp [Client.send, Client.resolveEndpoint, hc, hcode]
  have h0 : ¬ p.commands.length = 0 := by
    simpa [List.length_eq_zero] using hp
  exact ⟨hsend cmds, by simp [Client.SendPipe, h0, hsend]⟩

/-- Witness for C9: a 500 response whose body is a malformed stream. -/
theorem send_non200_statusCode_witness :
    ((Client.mk "http://localhost:8000/api" none "").SendPipe
        (fun _ => .ok ⟨500, [.error "unexpected end of JSON input"]⟩)
        ⟨[⟨none, "info", .strMap []⟩]⟩).2 = .error (ErrStatusCode 500) :=
  (send_non200_statusCode (Client.mk "http://localhost:8000/api" none "") rfl
    [] 500 (by decide) [.error "unexpected end of JSON input"]
    ⟨[⟨none, "info", .strMap []⟩]⟩ (by simp)).2

/-- C7 counterexample: the claim fails for in-place mutation of a
`json.RawMessage` payload. Enqueue a subscribe command with Info bytes
`"1"` (buffer 0 of the heap); overwriting those bytes to `"2"` after the
call changes the params of the already-buffered command as the
serializer reads them — the struct copy shares the slice's backing
array. -/
theorem subscribeInfo_payload_mutation_visible :
    materializeSubscribe (heapWrite [[49]] 0 [50])
        (mkSubscribeRequestRef "ch" "u" [WithSubscribeInfoRef (some 0)])
      ≠ materializeSubscribe [[49]]
        (mkSubscribeRequestRef "ch" "u" [WithSubscribeInfoRef (some 0)]) := by
  decide

/-- C7 amended: the merge is a shallow by-value copy. Every scalar field
of the buffered subscribe params is a value fixed at call time —
unchanged by any later heap write — and a `json.RawMessage` payload is
unchanged by writes to buffers it does not reference; but the RawMessage
fields are captured as references, so a write to the referenced buffer
is exactly what the buffered command's params read thereafter. -/
theorem addSubscribe_shallow_copy (ch u : String)
    (opts : List SubscribeOptionRef) (h : Heap) (a : Nat) (bs : List Nat)
    (r : subscribeRequestRef) (_hr : r = mkSubscribeRequestRef ch u opts) :
    (materializeSubscribe (heapWrite h a bs) r).Channel
        = (materializeSubscribe h r).Channel ∧
    (materializeSubscribe (heapWrite h a bs) r).User
        = (materializeSubscribe h r).User ∧
    (materializeSubscribe (heapWrite h a bs) r).Presence
        = (materializeSubscribe h r).Presence ∧
    (materializeSubscribe (heapWrite h a bs) r).JoinLeave
        = (materializeSubscribe h r).JoinLeave ∧
    (materializeSubscribe (heapWrite h a bs) r).Position
        = (materializeSubscribe h r).Position ∧
    (materializeSubscribe (heapWrite h a bs) r).Recover
        = (materializeSubscribe h r).Recover ∧
    (materializeSubscribe (heapWrite h a bs) r).RecoverSince
        = (materializeSubscribe h r).RecoverSince ∧
    (materializeSubscribe (heapWrite h a bs) r).ClientID
        = (materializeSubscribe h r).ClientID ∧
    (r.SubOpts.Info ≠ some a →
       (materializeSubscribe (heapWrite h a bs) r).Info
         = (materializeSubscribe h r).Info) ∧
    (r.SubOpts.Data ≠ some a →
       (materializeSubscribe (heapWrite h a bs) r).Data
         = (materializeSubscribe h r).Data) ∧
    (a < h.length → r.SubOpts.Info = some a →
       (materializeSubscribe (heapWrite h a bs) r).Info = some bs) ∧
    (a < h.length → r.SubOpts.Data = some a →
       (materializeSubscribe (heapWrite h a bs) r).Data = some bs) := by
  refine ⟨rfl, rfl, rfl, rfl, rfl, rfl, rfl, rfl, ?_, ?_, ?_, ?_⟩
  · intro hne
    show readRawRef (heapWrite h a bs) r.SubOpts.Info
        = readRawRef h r.SubOpts.Info
    cases hi : r.SubOpts.Info with
    | none => rfl
    | some b =>
        have hab : a ≠ b := by
          intro heq
          exact hne (by rw [hi, heq])
        simp [readRawRef, heapRead, heapWrite, List.getD,
              List.getElem?_set_ne hab]
  · intro hne
    show readRawRef (heapWrite h a bs) r.SubOpts.Data
        = readRawRef h r.SubOpts.Data
    cases hi : r.SubOpts.Data with
    | none => rfl
    | some b =>
        have hab : a ≠ b := by
          intro heq
          exact hne (by rw [hi, heq])
        simp [readRawRef, heapRead, heapWrite, List.getD,
              List.getElem?_set_ne hab]
  · intro hlt hi
    show readRawRef (heapWrite h a bs) r.SubOpts.Info = some bs
    rw [hi]
    simp [readRawRef, heapRead, heapWrite, List.getD,
          List.getElem?_set_eq_of_lt bs hlt]
  · intro hlt hi
    show readRawRef (heapWrite h a bs) r.SubOpts.Data = some bs
    rw [hi]
    simp [readRawRef, heapRead, heapWrite, List.getD,
          List.getElem?_set_eq_of_lt bs hlt]

/-- Witness for the amended C7: on a two-buffer heap, overwriting buffer
0 (the Info payload) leaves the Data payload (buffer 1) of the buffered
command unchanged, while the Info payload reads the new bytes. -/
theorem addSubscribe_shallow_copy_witness :
    (materializeSubscribe (heapWrite [[49], [51]] 0 [50])
        (mkSubscribeRequestRef "ch" "u"
          [WithSubscribeInfoRef (some 0), WithSubscribeDataRef (some 1)])).Data
      = (materializeSubscribe [[49], [51]]
        (mkSubscribeRequestRef "ch" "u"
          [WithSubscribeInfoRef (some 0), WithSubscribeDataRef (some 1)])).Data ∧
    (materializeSubscribe (heapWrite [[49], [51]] 0 [50])
        (mkSubscribeRequestRef "ch" "u"
          [WithSubscribeInfoRef (some 0), WithSubscribeDataRef (some 1)])).Info
      = some [50] := by
  have h := addSubscribe_shallow_copy "ch" "u"
    [WithSubscribeInfoRef (some 0), WithSubscribeDataRef (some 1)]
    [[49], [51]] 0 [50]
    (mkSubscribeRequestRef "ch" "u"
      [WithSubscribeInfoRef (some 0), WithSubscribeDataRef (some 1)]) rfl
  exact ⟨h.2.2.2.2.2.2.2.2.2.1 (by decide),
         h.2.2.2.2.2.2.2.2.2.2.1 (by decide) (by decide)⟩

/-- C8: for the single-command convenience operations (Publish,
History): when SendPipe succeeds and the single Reply carries a non-nil
error, the operation returns that server error with the zero-valued
result — for every result payload, so the decoder is never consulted;
when the Reply's error is nil the result payload is decoded, and a
decode failure surfaces as the distinct local decode error. -/
theorem single_op_error_short_circuit (c : Client) (hc : c.getEndpoint = none)
    (ch data : String) (popts : List PublishOption)
    (hopts : List HistoryOption) (r : Reply) :
    (∀ e : ServerError, r.Error = some e →
       c.Publish (fun _ => .ok ⟨200, [.ok r]⟩) ch data popts
           = ({}, some (.replyError e)) ∧
       c.History (fun _ => .ok ⟨200, [.ok r]⟩) ch hopts
           = ({}, some (.replyError e))) ∧
    (r.Error = none →
       c.Publish (fun _ => .ok ⟨200, [.ok r]⟩) ch data popts
           = (match decodePublish r.Result with
              | .ok pr => (pr, none)
              | .error m => ({}, some (.decodeError m))) ∧
       c.History (fun _ => .ok ⟨200, [.ok r]⟩) ch hopts
           = (match decodeHistory r.Result with
              | .ok hr => (hr, none)
              | .error m => ({}, some (.decodeError m)))) := by
  obtain ⟨re, rr⟩ := r
  constructor
  · intro e he
    cases he
    constructor <;>
      simp [Client.Publish, Client.History, Client.Pipe, Pipe.AddPublish,
            Pipe.AddHistory, Pipe.add, Client.SendPipe, Client.send,
            Client.resolveEndpoint, hc, parseReplies]
  · intro he
    cases he
    refine ⟨?_, ?_⟩ <;>
      simp only [Client.Publish, Client.History, Client.Pipe, Pipe.AddPublish,
            Pipe.AddHistory, Pipe.add, Client.SendPipe, Client.send,
            Client.resolveEndpoint, hc, parseReplies]
    · simp
      cases decodePublish rr <;> simp
    · simp
      cases decodeHistory rr <;> simp

/-- Witness for C8: a reply carrying server error 102 ("unknown
channel") makes Publish surface exactly that error with the zero
result. -/
theorem single_op_error_short_circuit_witness :
    (Client.mk "http://localhost:8000/api" none "").Publish
        (fun _ => .ok ⟨200, [.ok ⟨some ⟨102, "unknown channel"⟩, .null⟩]⟩)
        "chat" "\x7b\"input\":\"test\"\x7d" []
      = ({}, some (.replyError ⟨102, "unknown channel"⟩)) :=
  ((single_op_error_short_circuit (Client.mk "http://localhost:8000/api" none "")
      rfl "chat" "\x7b\"input\":\"test\"\x7d" [] []
      ⟨some ⟨102, "unknown channel"⟩, .null⟩).1
    ⟨102, "unknown channel"⟩ rfl).1

end Gocent
